import Mathlib

/-!
Verification of the MVT module execution core (`mvt/common/module.py`).

The Python source is shallowly embedded:
* a result / detection / timeline record is a flat JSON object, i.e. an
  association list of string keys to scalar field values (the timeline
  records produced by the pipeline have exactly the four fields
  `timestamp` / `module` / `event` / `data`, with `timestamp` nullable);
* `json.dumps(record, sort_keys=True)` canonicalises a record by sorting
  its fields by key (a stable insertion sort, comparing keys only);
  equality of the canonical serialisations is equality of the key-sorted
  records;
* a Python `set` of canonical serialisations is modelled as an
  insertion-ordered list of distinct canonical records;
* exceptions are modelled by an error type threaded through each stage;
  a raising method still keeps the mutations it made before raising,
  so stage functions return a state **and** an optional error;
* the logger is modelled as an accumulated list of (level, message)
  entries, file output as an accumulated list of (name, content) pairs.
-/

/-- A scalar JSON field value: `None` or a string. -/
inductive FieldValue
  | null
  | str (s : String)
deriving DecidableEq, Repr

/-- A flat structured record: an association list of fields, as produced
by the extraction modules and consumed by `timeline_deduplicate` and the
output writer. -/
abbrev Record := List (String × FieldValue)

/-- Key order used by `json.dumps(..., sort_keys=True)`: compare fields
by their key only. -/
def fieldKeyLE (a b : String × FieldValue) : Prop := a.1 ≤ b.1

instance : DecidableRel fieldKeyLE := fun a b =>
  decidable_of_iff (¬ b.1.toList < a.1.toList)
    (by rw [← String.lt_iff_toList_lt]; exact not_lt)

instance : IsTotal (String × FieldValue) fieldKeyLE := ⟨fun a b => le_total a.1 b.1⟩

instance : IsTrans (String × FieldValue) fieldKeyLE := ⟨fun _ _ _ h1 h2 => le_trans h1 h2⟩

/-- `json.loads(json.dumps(r, sort_keys=True))`: the record with its
fields sorted by key (stable, comparing keys only). Two records have
equal canonical serialisations iff their `canonRecord`s are equal. -/
def canonRecord (r : Record) : Record := r.insertionSort fieldKeyLE

/-- Adding one canonical serialisation to the set, modelled as an
insertion-ordered distinct list. -/
def dedupeStep (acc : List Record) (r : Record) : List Record :=
  if canonRecord r ∈ acc then acc else acc ++ [canonRecord r]

/-- `MVTModule.timeline_deduplicate`: serialise every record as JSON with
sorted keys, collect the serialisations in a set, and parse each distinct
serialisation back. -/
def timeline_deduplicate (timeline : List Record) : List Record :=
  timeline.foldl dedupeStep []

/-! ### Slug derivation (`MVTModule.get_slug`)

`re.sub("(.)([A-Z][a-z]+)", r"\1_\2", name)` followed by
`re.sub("([a-z0-9])([A-Z])", r"\1_\2", ...)` and `.lower()`, embedded as
left-to-right scans over the character list with non-overlapping matches.
(`.` in the pattern excludes newlines; Python identifiers contain none.) -/

def isAsciiUpper (c : Char) : Bool := 'A' ≤ c && c ≤ 'Z'

def isAsciiLower (c : Char) : Bool := 'a' ≤ c && c ≤ 'z'

def isAsciiLowerOrDigit (c : Char) : Bool := isAsciiLower c || ('0' ≤ c && c ≤ '9')

/-- First substitution: `(.)([A-Z][a-z]+)` → `\1_\2`, scanning left to
right; on a match the scan resumes after the matched text, otherwise it
advances one character. `[a-z]+` is greedy. The fuel argument (always
instantiated with the list length, which bounds the number of scan
steps) keeps the recursion structural. -/
def sub1Fuel : Nat → List Char → List Char
  | _, [] => []
  | _, [c] => [c]
  | 0, l => l
  | fuel + 1, c :: u :: rest =>
    if isAsciiUpper u then
      let lows := rest.takeWhile isAsciiLower
      if lows.isEmpty then
        c :: sub1Fuel fuel (u :: rest)
      else
        c :: '_' :: u :: (lows ++ sub1Fuel fuel (rest.dropWhile isAsciiLower))
    else
      c :: sub1Fuel fuel (u :: rest)

def sub1 (l : List Char) : List Char := sub1Fuel l.length l

/-- Second substitution: `([a-z0-9])([A-Z])` → `\1_\2`, same scanning
discipline. -/
def sub2 : List Char → List Char
  | [] => []
  | [c] => [c]
  | c :: u :: rest =>
    if isAsciiLowerOrDigit c && isAsciiUpper u then
      c :: '_' :: u :: sub2 rest
    else
      c :: sub2 (u :: rest)

/-- The slug derived from the class name by the two substitutions and
`.lower()`. -/
def derive_slug (className : String) : String :=
  String.mk ((sub2 (sub1 className.data)).map Char.toLower)

/-- `MVTModule.get_slug`: `if self.slug:` — a *truthy* (set and
non-empty) explicit slug wins, otherwise the slug is derived from the
class name. -/
def get_slug (slug : Option String) (className : String) : String :=
  match slug with
  | some s => if s = "" then derive_slug className else s
  | none => derive_slug className

/-! ### Errors, logging, module state -/

/-- The exception classes distinguished by `run_module`'s handlers:
`NotImplementedError`, the three classes declared in `module.py`, and any
other `Exception`. -/
inductive PyErr
  | notImplementedError
  | insufficientPrivileges
  | databaseNotFound
  | databaseCorrupted
  | other (msg : String)
deriving DecidableEq, Repr

/-- Severity of a logger call: `log.info`, `log.error`, `log.exception`. -/
inductive LogLevel
  | info
  | error
  | exception
deriving DecidableEq, Repr

structure LogEntry where
  level : LogLevel
  msg : String
deriving DecidableEq, Repr

/-- The mutable state of an `MVTModule` instance (`__init__` fields plus
the class-level `slug` attribute and the class name used by `get_slug`
and the log messages). `indicators` records the truthiness of
`self.indicators` (whether an indicator port is bound). -/
structure ModState where
  file_path : Option String
  base_folder : Option String
  output_folder : Option String
  fast_mode : Bool
  slug : Option String
  className : String
  indicators : Bool
  results : List Record
  detected : List Record
  timeline : List Record
  timeline_detected : List Record
deriving DecidableEq, Repr

/-- `MVTModule.__init__` (value view: the aliasing of the shared default
`results=[]` argument is modelled separately by the heap model below). -/
def MVTModule.init (file_path base_folder output_folder : Option String)
    (fast_mode : Bool) (slug : Option String) (className : String)
    (results : List Record) : ModState :=
  { file_path := file_path
    base_folder := base_folder
    output_folder := output_folder
    fast_mode := fast_mode
    slug := slug
    className := className
    indicators := false
    results := results
    detected := []
    timeline := []
    timeline_detected := [] }

/-- `MVTModule.from_json`: load the persisted results content and build a
fresh module around it (`cls(results=results, log=log)`; every other
constructor argument is left at its default). -/
def MVTModule.from_json (content : List Record) (className : String) : ModState :=
  MVTModule.init none none none false none className content

/-- Truthiness of an optional string (`if not self.output_folder:` and
the like): `None` and `""` are falsy. -/
def truthyOpt : Option String → Bool
  | none => false
  | some s => s ≠ ""

/-! ### save_to_json -/

/-- Observable outcome of `MVTModule.save_to_json`: the structured files
written (name, decoded content), the log entries emitted, and the
exception escaping from it, if any. `json.dump`/`json.load` of the
external `simplejson` library are modelled at the level of the decoded
structured content; whether `json.dump` raises on a given content (for
example on a circular structure) is a parameter `dump`. -/
structure SaveOutcome where
  files : List (String × List Record)
  log : List LogEntry
  escaped : Option PyErr
deriving DecidableEq, Repr

/-- `MVTModule.save_to_json`. `if not self.output_folder: return`; then
the `results` dump is attempted inside `try/except Exception` (failure
logged as error), the `detected` dump is attempted with no handler at
all, so its failure escapes. -/
def save_to_json (dump : List Record → Option PyErr) (m : ModState) : SaveOutcome :=
  if truthyOpt m.output_folder = false then
    { files := [], log := [], escaped := none }
  else
    let name := get_slug m.slug m.className
    let resPart : List (String × List Record) × List LogEntry :=
      if m.results = [] then ([], [])
      else
        match dump m.results with
        | some _ =>
          ([], [{ level := LogLevel.error, msg := "Unable to store results of module" }])
        | none => ([(name ++ ".json", m.results)], [])
    if m.detected = [] then
      { files := resPart.1, log := resPart.2, escaped := none }
    else
      match dump m.detected with
      | some e => { files := resPart.1, log := resPart.2, escaped := some e }
      | none =>
        { files := resPart.1 ++ [(name ++ "_detected.json", m.detected)]
          log := resPart.2
          escaped := none }

/-! ### to_timeline -/

/-- Possible values of `self.serialize(record)`: `None`, a single record,
or a list of records (`type(record) == list`). -/
inductive SerRes
  | noneVal
  | single (r : Record)
  | listOf (rs : List Record)
deriving DecidableEq, Repr

/-- One loop iteration body of `to_timeline`: `if record:` (truthiness —
`None`, an empty list and an empty dict are all falsy) then extend or
append. -/
def serResAppend (tl : List Record) (res : SerRes) : List Record :=
  match res with
  | SerRes.noneVal => tl
  | SerRes.single r => if r = [] then tl else tl ++ [r]
  | SerRes.listOf rs => if rs = [] then tl else tl ++ rs

/-- The `for` loop of `to_timeline` over one source list: serialize each
entry, accumulating into the timeline; an exception from `serialize`
aborts the loop, keeping the entries appended so far. -/
def serLoop (ser : Record → Except PyErr SerRes) :
    List Record → List Record → List Record × Option PyErr
  | [], tl => (tl, none)
  | r :: rest, tl =>
    match ser r with
    | Except.error e => (tl, some e)
    | Except.ok res => serLoop ser rest (serResAppend tl res)

/-- `MVTModule.to_timeline`: serialize `results` into `timeline` and
`detected` into `timeline_detected`, then deduplicate both. A raising
`serialize` leaves the partial accumulation in place and re-raises. -/
def to_timeline (ser : Record → Except PyErr SerRes) (m : ModState) :
    ModState × Option PyErr :=
  let (tl1, e1) := serLoop ser m.results m.timeline
  match e1 with
  | some e => ({ m with timeline := tl1 }, some e)
  | none =>
    let (tl2, e2) := serLoop ser m.detected m.timeline_detected
    match e2 with
    | some e => ({ m with timeline := tl1, timeline_detected := tl2 }, some e)
    | none =>
      ({ m with
          timeline := timeline_deduplicate tl1
          timeline_detected := timeline_deduplicate tl2 }, none)

/-! ### run_module -/

/-- The overridable operations of a concrete module subclass, plus the
`json.dump` failure oracle. Each stateful method returns the mutated
state together with the exception it raised, if any (mutations made
before raising persist). -/
structure ModBehavior where
  run : ModState → ModState × Option PyErr
  check_indicators : ModState → ModState × Option PyErr
  serialize : Record → Except PyErr SerRes
  dump : List Record → Option PyErr

/-- Which methods `run_module` invoked, in order. -/
inductive StageCall
  | runStage
  | checkStage
  | timelineStage
  | saveStage
deriving DecidableEq, Repr

/-- Observable outcome of one `run_module(module)` call. `escaped` is the
exception propagating out of `run_module` to its caller, if any. -/
structure RunOutcome where
  state : ModState
  log : List LogEntry
  files : List (String × List Record)
  calls : List StageCall
  escaped : Option PyErr
deriving DecidableEq, Repr

/-- The tail of `run_module` after `check_indicators` has been dealt
with: `try: to_timeline() except NotImplementedError: pass`, then
`save_to_json()`. Any other exception from `to_timeline` escapes; an
exception escaping `save_to_json` escapes from `run_module` too. -/
def runAfterCheck (b : ModBehavior) (m : ModState) (log : List LogEntry) :
    RunOutcome :=
  let (m3, terr) := to_timeline b.serialize m
  match terr with
  | some PyErr.notImplementedError =>
    let s := save_to_json b.dump m3
    { state := m3, log := log ++ s.log, files := s.files
      calls := [StageCall.runStage, StageCall.checkStage, StageCall.timelineStage,
                StageCall.saveStage]
      escaped := s.escaped }
  | some e =>
    { state := m3, log := log
      files := []
      calls := [StageCall.runStage, StageCall.checkStage, StageCall.timelineStage]
      escaped := some e }
  | none =>
    let s := save_to_json b.dump m3
    { state := m3, log := log ++ s.log, files := s.files
      calls := [StageCall.runStage, StageCall.checkStage, StageCall.timelineStage,
                StageCall.saveStage]
      escaped := s.escaped }

/-- `run_module(module)`: run `module.run()` inside the five-armed
`try/except`; only on success (`else:`) run `check_indicators` (catching
only `NotImplementedError`, with the "no detections" notice when an
indicator port is bound and `detected` is empty), then `to_timeline` and
`save_to_json`. -/
def run_module (b : ModBehavior) (m0 : ModState) : RunOutcome :=
  let log0 : List LogEntry := [{ level := LogLevel.info, msg := "Running module" }]
  let (m1, rerr) := b.run m0
  match rerr with
  | some PyErr.notImplementedError =>
    { state := m1
      log := log0 ++ [{ level := LogLevel.exception, msg := "run not implemented" }]
      files := [], calls := [StageCall.runStage], escaped := none }
  | some PyErr.insufficientPrivileges =>
    { state := m1
      log := log0 ++ [{ level := LogLevel.info, msg := "insufficient privileges" }]
      files := [], calls := [StageCall.runStage], escaped := none }
  | some PyErr.databaseNotFound =>
    { state := m1
      log := log0 ++ [{ level := LogLevel.info, msg := "there might be no data to extract" }]
      files := [], calls := [StageCall.runStage], escaped := none }
  | some PyErr.databaseCorrupted =>
    { state := m1
      log := log0 ++ [{ level := LogLevel.error, msg := "database corrupted and recovery failed" }]
      files := [], calls := [StageCall.runStage], escaped := none }
  | some (PyErr.other _) =>
    { state := m1
      log := log0 ++ [{ level := LogLevel.exception, msg := "error in running extraction" }]
      files := [], calls := [StageCall.runStage], escaped := none }
  | none =>
    let (m2, cerr) := b.check_indicators m1
    match cerr with
    | some PyErr.notImplementedError =>
      runAfterCheck b m2
        (log0 ++ [{ level := LogLevel.info, msg := "module does not support indicators" }])
    | some e =>
      { state := m2, log := log0, files := []
        calls := [StageCall.runStage, StageCall.checkStage], escaped := some e }
    | none =>
      let noDet : List LogEntry :=
        if m2.indicators && decide (m2.detected = []) then
          [{ level := LogLevel.info, msg := "module produced no detections" }]
        else []
      runAfterCheck b m2 (log0 ++ noDet)

/-- Modelled from the spec: the external batch runner (not part of
`module.py`) that invokes `run_module` once per module, sequentially, on
the invoking thread, with no exception guard of its own. An exception
escaping `run_module` therefore aborts the remaining sibling runs. -/
def run_batch : List (ModBehavior × ModState) → List RunOutcome × Option PyErr
  | [] => ([], none)
  | (b, m) :: rest =>
    let o := run_module b m
    match o.escaped with
    | some e => ([o], some e)
    | none =>
      let (os, esc) := run_batch rest
      (o :: os, esc)

/-! ### save_timeline (merged timeline rendering) -/

/-- One merged-timeline event as consumed by `save_timeline`: the four
fields read from the record dict. `x["timestamp"]` is the nullable sort
key; the other fields are read with `.get` (absent → `None`, rendered by
`csv.writer` as the empty string). -/
structure TimelineEvent where
  timestamp : Option String
  moduleName : Option String
  event : Option String
  data : Option String
deriving DecidableEq, Repr

/-- The sort key of `sorted(...)`:
`x["timestamp"] if x["timestamp"] is not None else ""`. -/
def eventSortKey (e : TimelineEvent) : String := e.timestamp.getD ""

/-- The comparison `sorted` orders by (ascending, stable). -/
def eventLE (a b : TimelineEvent) : Prop := eventSortKey a ≤ eventSortKey b

instance : DecidableRel eventLE := fun a b =>
  decidable_of_iff (¬ (eventSortKey b).toList < (eventSortKey a).toList)
    (by rw [← String.lt_iff_toList_lt]; exact not_lt)

instance : IsTotal TimelineEvent eventLE := ⟨fun x y => le_total (eventSortKey x) (eventSortKey y)⟩

instance : IsTrans TimelineEvent eventLE := ⟨fun _ _ _ h1 h2 => le_trans h1 h2⟩

/-- One `csv.writerow` of an event (a `None` cell renders as `""`). -/
def renderRow (e : TimelineEvent) : List String :=
  [e.timestamp.getD "", e.moduleName.getD "", e.event.getD "", e.data.getD ""]

/-- The header row `["UTC Timestamp", "Plugin", "Event", "Description"]`. -/
def timelineHeader : List String := ["UTC Timestamp", "Plugin", "Event", "Description"]

/-- `save_timeline(timeline, timeline_path)`: the file is opened with
mode `"a+"` (append — `existing` is the rows already in the file), the
header row is written, then every event in ascending timestamp order
(`sorted` is stable; an absent timestamp sorts as `""`). The file is
modelled as the list of its csv rows. -/
def save_timeline (timeline : List TimelineEvent) (existing : List (List String)) :
    List (List String) :=
  existing ++ (timelineHeader :: (timeline.insertionSort eventLE).map renderRow)

/-! ### Heap model of `__init__` (shared mutable default argument)

In Python the default value of a parameter is evaluated once, when the
`def` is executed; `__init__(..., results=[])` therefore allocates one
list object shared by every call that omits `results`. The heap model
makes the object identities explicit: a heap of list objects addressed
by allocation index, and a module instance holding addresses. -/

abbrev Addr := Nat

/-- A heap of Python list objects (each cell one list of records). -/
structure ListHeap where
  cells : List (List Record)
deriving DecidableEq, Repr

def ListHeap.alloc (h : ListHeap) (v : List Record) : ListHeap × Addr :=
  (⟨h.cells ++ [v]⟩, h.cells.length)

def ListHeap.get (h : ListHeap) (a : Addr) : List Record :=
  h.cells.getD a []

def ListHeap.set (h : ListHeap) (a : Addr) (v : List Record) : ListHeap :=
  ⟨h.cells.set a v⟩

/-- `lst.append(x)` on the list object at address `a`. -/
def ListHeap.appendEntry (h : ListHeap) (a : Addr) (x : Record) : ListHeap :=
  h.set a (h.get a ++ [x])

/-- The four accumulator references of one `MVTModule` instance. -/
structure ModuleRefs where
  resultsRef : Addr
  detectedRef : Addr
  timelineRef : Addr
  timelineDetectedRef : Addr
deriving DecidableEq, Repr

/-- Evaluation of the default argument `results=[]` at `def` time: one
list object allocated once for the whole class. -/
def allocResultsDefault (h : ListHeap) : ListHeap × Addr := h.alloc []

/-- `MVTModule.__init__` at the heap level: `self.results = results`
binds the passed-in object — the shared default when the argument is
omitted — while `self.detected = []`, `self.timeline = []` and
`self.timeline_detected = []` each allocate a fresh list object. -/
def MVTModule.initRefs (h : ListHeap) (resultsDefault : Addr)
    (resultsArg : Option Addr) : ListHeap × ModuleRefs :=
  let rRef := resultsArg.getD resultsDefault
  let (h1, dRef) := h.alloc []
  let (h2, tRef) := h1.alloc []
  let (h3, tdRef) := h2.alloc []
  (h3, { resultsRef := rRef, detectedRef := dRef, timelineRef := tRef,
         timelineDetectedRef := tdRef })

/-! ### Properties of the timeline deduplicator -/

theorem canonRecord_idem (r : Record) : canonRecord (canonRecord r) = canonRecord r :=
  List.Sorted.insertionSort_eq (List.sorted_insertionSort fieldKeyLE r)

theorem mem_foldl_dedupeStep :
    ∀ (T acc : List Record), (∀ x ∈ acc, canonRecord x = x) →
      ∀ x ∈ T.foldl dedupeStep acc, canonRecord x = x := by
  intro T
  induction T with
  | nil => intro acc hacc x hx; exact hacc x hx
  | cons r rest ih =>
    intro acc hacc x hx
    refine ih (dedupeStep acc r) ?_ x hx
    intro y hy
    unfold dedupeStep at hy
    by_cases hmem : canonRecord r ∈ acc
    · rw [if_pos hmem] at hy; exact hacc y hy
    · rw [if_neg hmem] at hy
      rcases List.mem_append.mp hy with h | h
      · exact hacc y h
      · rcases List.mem_singleton.mp h with rfl
        exact canonRecord_idem r

theorem nodup_foldl_dedupeStep :
    ∀ (T acc : List Record), acc.Nodup → (T.foldl dedupeStep acc).Nodup := by
  intro T
  induction T with
  | nil => intro acc hacc; exact hacc
  | cons r rest ih =>
    intro acc hacc
    refine ih (dedupeStep acc r) ?_
    unfold dedupeStep
    by_cases hmem : canonRecord r ∈ acc
    · rw [if_pos hmem]; exact hacc
    · rw [if_neg hmem]
      exact List.nodup_append.mpr ⟨hacc, List.nodup_singleton _,
        fun y hy => by simp only [List.mem_singleton]; rintro rfl; exact hmem hy⟩

theorem foldl_dedupeStep_fixed :
    ∀ (L acc : List Record), (∀ x ∈ L, canonRecord x = x) → (acc ++ L).Nodup →
      L.foldl dedupeStep acc = acc ++ L := by
  intro L
  induction L with
  | nil => intro acc _ _; simp
  | cons r rest ih =>
    intro acc hfix hnd
    have hr : canonRecord r = r := hfix r (List.mem_cons_self r rest)
    have hrmem : r ∉ acc := by
      intro hmem
      have := (List.nodup_append.mp hnd).2.2 hmem
      exact this (List.mem_cons_self r rest)
    have hstep : dedupeStep acc r = acc ++ [r] := by
      unfold dedupeStep
      rw [hr, if_neg hrmem]
    simp only [List.foldl_cons, hstep]
    have := ih (acc ++ [r]) (fun x hx => hfix x (List.mem_cons_of_mem r hx))
      (by simpa using hnd)
    simpa using this

theorem timeline_deduplicate_idem (T : List Record) :
    timeline_deduplicate (timeline_deduplicate T) = timeline_deduplicate T := by
  have h1 := mem_foldl_dedupeStep T [] (by intro x hx; simp at hx)
  have h2 := nodup_foldl_dedupeStep T [] List.nodup_nil
  have h3 := foldl_dedupeStep_fixed (timeline_deduplicate T) [] h1 (by simpa using h2)
  simpa [timeline_deduplicate] using h3

theorem length_foldl_dedupeStep :
    ∀ (T acc : List Record), (T.foldl dedupeStep acc).length ≤ acc.length + T.length := by
  intro T
  induction T with
  | nil => intro acc; simp
  | cons r rest ih =>
    intro acc
    have hstep : (dedupeStep acc r).length ≤ acc.length + 1 := by
      unfold dedupeStep
      by_cases hmem : canonRecord r ∈ acc
      · rw [if_pos hmem]; omega
      · rw [if_neg hmem]; simp
    have := ih (dedupeStep acc r)
    simp only [List.foldl_cons, List.length_cons]
    omega

theorem timeline_deduplicate_length_le (T : List Record) :
    (timeline_deduplicate T).length ≤ T.length := by
  have := length_foldl_dedupeStep T []
  simpa [timeline_deduplicate] using this

theorem timeline_deduplicate_pair (a b : Record) :
    (timeline_deduplicate [a, b]).length = 1 ↔ canonRecord a = canonRecord b := by
  simp only [timeline_deduplicate, List.foldl_cons, List.foldl_nil]
  by_cases hne : canonRecord b = canonRecord a
  · simp [dedupeStep, hne]
  · have hne' : ¬ canonRecord a = canonRecord b := fun h => hne h.symm
    simp [dedupeStep, hne, hne']

theorem canonRecord_eq_of_perm {a b : Record} (hk : (a.map Prod.fst).Nodup)
    (hab : a.Perm b) : canonRecord a = canonRecord b := by
  have pa : (canonRecord a).Perm a := List.perm_insertionSort fieldKeyLE a
  have pb : (canonRecord b).Perm b := List.perm_insertionSort fieldKeyLE b
  have hperm : (canonRecord a).Perm (canonRecord b) := pa.trans (hab.trans pb.symm)
  have sa : List.Pairwise fieldKeyLE (canonRecord a) := List.sorted_insertionSort _ a
  have sb : List.Pairwise fieldKeyLE (canonRecord b) := List.sorted_insertionSort _ b
  refine List.Perm.eq_of_sorted ?_ sa sb hperm
  intro x y hx hy hxy hyx
  have hx' : x ∈ a := pa.subset hx
  have hy' : y ∈ a := hab.symm.subset (pb.subset hy)
  have hkey : x.1 = y.1 := le_antisymm hxy hyx
  exact List.inj_on_of_nodup_map hk hx' hy' hkey

/-! ### Concrete fixtures for witnesses and counterexamples -/

/-- A representative timeline record. -/
def sampleRecord : Record :=
  [("timestamp", FieldValue.str "2023-01-01"), ("module", FieldValue.str "contact_list"),
   ("event", FieldValue.str "ev"), ("data", FieldValue.str "d")]

/-- The same fields as `sampleRecord` in a different field order. -/
def sampleRecordShuffled : Record :=
  [("event", FieldValue.str "ev"), ("timestamp", FieldValue.str "2023-01-01"),
   ("data", FieldValue.str "d"), ("module", FieldValue.str "contact_list")]

/-- A module state with an output folder configured and empty accumulators. -/
def baseState : ModState :=
  { file_path := none, base_folder := none, output_folder := some "output"
    fast_mode := false, slug := none, className := "ContactList"
    indicators := false, results := [], detected := [], timeline := []
    timeline_detected := [] }

/-- A behavior whose every stage succeeds and does nothing. -/
def okBehavior : ModBehavior :=
  { run := fun s => (s, none)
    check_indicators := fun s => (s, none)
    serialize := fun _ => Except.ok SerRes.noneVal
    dump := fun _ => none }

/-- A behavior whose `run` succeeds but whose `check_indicators` raises a
generic (unclassified) exception. -/
def checkFailBehavior : ModBehavior :=
  { okBehavior with check_indicators := fun s => (s, some (PyErr.other "boom")) }

/-- A behavior whose `run` raises `DatabaseCorruptedError`. -/
def corruptBehavior : ModBehavior :=
  { okBehavior with run := fun s => (s, some PyErr.databaseCorrupted) }

/-- A behavior whose `run` raises `DatabaseNotFoundError`. -/
def notFoundBehavior : ModBehavior :=
  { okBehavior with run := fun s => (s, some PyErr.databaseNotFound) }

/-- A record standing for a value on which `json.dump` raises (for
example a circular structure: `ValueError: Circular reference detected`). -/
def circularRecord : Record := [("detkey", FieldValue.str "circular")]

/-- A dump oracle that fails exactly on `[circularRecord]`. -/
def circularDump : List Record → Option PyErr :=
  fun rs => if rs = [circularRecord] then some (PyErr.other "Circular reference detected") else none

/-- A dump oracle that fails exactly on `[sampleRecord]`. -/
def resultsFailDump : List Record → Option PyErr :=
  fun rs => if rs = [sampleRecord] then some (PyErr.other "not serializable") else none

/-! ### Claim theorems -/

/-- C6: `timeline_deduplicate` is idempotent and never lengthens its
input; two entries collapse to one exactly when their canonical
(key-sorted, field-order-independent) serialisations agree — in
particular two records with distinct keys carrying the same fields
(timestamp included) in any field order collapse to one. -/
theorem c6_dedupe_idempotent_shrinking_pairwise :
    (∀ T : List Record,
        timeline_deduplicate (timeline_deduplicate T) = timeline_deduplicate T)
    ∧ (∀ T : List Record, (timeline_deduplicate T).length ≤ T.length)
    ∧ (∀ a b : Record,
        ((timeline_deduplicate [a, b]).length = 1 ↔ canonRecord a = canonRecord b))
    ∧ (∀ a b : Record, (a.map Prod.fst).Nodup → a.Perm b →
        (timeline_deduplicate [a, b]).length = 1) :=
  ⟨timeline_deduplicate_idem, timeline_deduplicate_length_le, timeline_deduplicate_pair,
   fun _ b hk hab => (timeline_deduplicate_pair _ b).mpr (canonRecord_eq_of_perm hk hab)⟩

/-- Witness for C6 at concrete records: `sampleRecordShuffled` permutes
the fields of `sampleRecord` and the two collapse to a single entry. -/
theorem c6_dedupe_witness :
    (timeline_deduplicate (timeline_deduplicate [sampleRecord, sampleRecord]) =
        timeline_deduplicate [sampleRecord, sampleRecord])
    ∧ (timeline_deduplicate [sampleRecord, sampleRecord]).length ≤
        ([sampleRecord, sampleRecord] : List Record).length
    ∧ (timeline_deduplicate [sampleRecord, sampleRecordShuffled]).length = 1 :=
  ⟨c6_dedupe_idempotent_shrinking_pairwise.1 [sampleRecord, sampleRecord],
   c6_dedupe_idempotent_shrinking_pairwise.2.1 [sampleRecord, sampleRecord],
   c6_dedupe_idempotent_shrinking_pairwise.2.2.2 sampleRecord sampleRecordShuffled
     (by decide) (by decide)⟩

/-- C8 counterexample: the slug override `""` is explicitly set
(non-`None`), yet `get_slug` does not return it — `if self.slug:` is a
truthiness test, not a `None` test, so the empty override is ignored and
the slug is derived from the class name instead. -/
theorem c8_counterexample_empty_override :
    get_slug (some "") "ContactList" = "contact_list"
    ∧ ("contact_list" : String) ≠ "" := by
  exact ⟨by decide, by decide⟩

/-- C8 (amended): `get_slug` is deterministic: the two-capitalized-word
class name `ContactList` derives the separator-joined lowercase slug
`contact_list`, and a *non-empty* explicit override is returned
unchanged regardless of the class name. -/
theorem c8_get_slug_amended :
    get_slug none "ContactList" = "contact_list"
    ∧ (∀ s className : String, s ≠ "" → get_slug (some s) className = s) :=
  ⟨by decide, fun s _ hs => by simp [get_slug, hs]⟩

/-- Witness for C8 at a concrete non-empty override. -/
theorem c8_get_slug_witness :
    get_slug none "ContactList" = "contact_list"
    ∧ get_slug (some "custom_slug") "ContactList" = "custom_slug" :=
  ⟨c8_get_slug_amended.1, c8_get_slug_amended.2 "custom_slug" "ContactList" (by decide)⟩

/-- C7: `save_timeline` appends to the existing file contents; after the
header row, the body rows are in ascending order of the rendered
timestamp column (an absent timestamp renders and sorts as `""`); on the
spec's example timestamps `["2023-01-02", null, "2023-01-01"]` the
rendered order is null-row, `"2023-01-01"`-row, `"2023-01-02"`-row. -/
theorem c7_save_timeline_sorted_appending :
    (∀ (tl : List TimelineEvent) (existing : List (List String)),
        save_timeline tl existing = existing ++ save_timeline tl [])
    ∧ (∀ tl : List TimelineEvent,
        List.Pairwise (fun r s : List String => r.headD "" ≤ s.headD "")
          ((save_timeline tl []).drop 1))
    ∧ save_timeline
        [{ timestamp := some "2023-01-02", moduleName := some "m1", event := some "ev1",
           data := some "d1" },
         { timestamp := none, moduleName := some "m2", event := some "ev2",
           data := some "d2" },
         { timestamp := some "2023-01-01", moduleName := some "m3", event := some "ev3",
           data := some "d3" }] []
      = [["UTC Timestamp", "Plugin", "Event", "Description"],
         ["", "m2", "ev2", "d2"],
         ["2023-01-01", "m3", "ev3", "d3"],
         ["2023-01-02", "m1", "ev1", "d1"]] := by
  refine ⟨fun tl existing => by simp [save_timeline], fun tl => ?_, by decide⟩
  simp only [save_timeline, List.nil_append, List.drop_succ_cons, List.drop_zero]
  rw [List.pairwise_map]
  refine (List.sorted_insertionSort eventLE tl).imp ?_
  intro a b h
  simpa [renderRow, eventSortKey, eventLE] using h

/-- `save_to_json` with a falsy `output_folder` returns immediately. -/
theorem save_to_json_falsy_folder (dump : List Record → Option PyErr) (m : ModState)
    (h : truthyOpt m.output_folder = false) :
    save_to_json dump m = { files := [], log := [], escaped := none } := by
  simp [save_to_json, h]

/-- Case analysis over `run_module`: whenever the final state has no
output folder set, no file is written, and if the persistence stage was
reached nothing escapes. -/
theorem run_module_files_empty_of_no_folder (b : ModBehavior) (m : ModState)
    (h : (run_module b m).state.output_folder = none) :
    (run_module b m).files = []
    ∧ (StageCall.saveStage ∈ (run_module b m).calls → (run_module b m).escaped = none) := by
  have hfold : ∀ (m3 : ModState) (log : List LogEntry),
      (runAfterCheck b m3 log).state.output_folder = none →
      (runAfterCheck b m3 log).files = []
      ∧ (StageCall.saveStage ∈ (runAfterCheck b m3 log).calls →
          (runAfterCheck b m3 log).escaped = none) := by
    intro m3 log hh
    rcases ht : to_timeline b.serialize m3 with ⟨m4, terr⟩
    rcases terr with _ | e
    · simp only [runAfterCheck, ht] at hh ⊢
      rw [save_to_json_falsy_folder b.dump m4 (by simp [truthyOpt, hh])]
      simp
    · cases e <;> simp only [runAfterCheck, ht] at hh ⊢ <;>
        first
        | (rw [save_to_json_falsy_folder b.dump m4 (by simp [truthyOpt, hh])]; simp)
        | simp
  rcases hr : b.run m with ⟨m1, rerr⟩
  rcases rerr with _ | e
  · rcases hc : b.check_indicators m1 with ⟨m2, cerr⟩
    rcases cerr with _ | e2
    · simp only [run_module, hr, hc] at h ⊢
      exact hfold m2 _ h
    · cases e2 <;> simp only [run_module, hr, hc] at h ⊢ <;>
        first | exact hfold m2 _ h | simp
  · cases e <;> simp only [run_module, hr] at h ⊢ <;> simp

/-- C10: with `output_folder` unset (`None`), `save_to_json` returns
immediately — no file, no log, nothing raised — even when `results` and
`detected` are both non-empty; consequently a pipeline whose module
still has no output folder when the persistence stage is reached
completes with no persisted output and nothing escaping from it. -/
theorem c10_save_to_json_unset_output_folder :
    (∀ (dump : List Record → Option PyErr) (m : ModState),
        m.output_folder = none → m.results ≠ [] → m.detected ≠ [] →
        save_to_json dump m = { files := [], log := [], escaped := none })
    ∧ (∀ (b : ModBehavior) (m : ModState),
        (run_module b m).state.output_folder = none →
        (run_module b m).files = []
        ∧ (StageCall.saveStage ∈ (run_module b m).calls →
            (run_module b m).escaped = none)) :=
  ⟨fun dump m h _ _ => save_to_json_falsy_folder dump m (by simp [truthyOpt, h]),
   run_module_files_empty_of_no_folder⟩

/-- Witness for C10: a module with results and detections but no output
folder persists nothing, and a full (all stages succeed) run of such a
module writes no file and raises nothing. -/
theorem c10_save_to_json_witness :
    save_to_json circularDump
        { baseState with output_folder := none, results := [sampleRecord],
                         detected := [circularRecord] }
      = { files := [], log := [], escaped := none }
    ∧ (run_module okBehavior { baseState with output_folder := none }).files = [] :=
  ⟨c10_save_to_json_unset_output_folder.1 circularDump
      { baseState with output_folder := none, results := [sampleRecord],
                       detected := [circularRecord] }
      (by decide) (by decide) (by decide),
   (c10_save_to_json_unset_output_folder.2 okBehavior
      { baseState with output_folder := none } (by decide)).1⟩

/-- C9: reload round-trip. If persistence runs (truthy output folder),
`results` is non-empty and its dump does not raise, then
`save_to_json` writes the results file, keyed by the module's slug, with
exactly `results` as content, and `from_json` of that content rebuilds a
module whose `results` equals the original. -/
theorem c9_roundtrip_results (dump : List Record → Option PyErr) (m : ModState)
    (hout : truthyOpt m.output_folder = true) (hres : m.results ≠ [])
    (hdump : dump m.results = none) :
    ∃ content,
      (get_slug m.slug m.className ++ ".json", content) ∈ (save_to_json dump m).files
      ∧ (MVTModule.from_json content m.className).results = m.results := by
  refine ⟨m.results, ?_, rfl⟩
  have hcond : ¬ truthyOpt m.output_folder = false := by simp [hout]
  by_cases hdet : m.detected = []
  · simp [save_to_json, hcond, hres, hdump, hdet]
  · rcases hd2 : dump m.detected with _ | e <;>
      simp [save_to_json, hcond, hres, hdump, hdet, hd2]

/-- Witness for C9 at a concrete module with one result entry. -/
theorem c9_roundtrip_witness :
    ∃ content,
      (get_slug baseState.slug baseState.className ++ ".json", content) ∈
        (save_to_json (fun _ => none)
          { baseState with results := [sampleRecord] }).files
      ∧ (MVTModule.from_json content baseState.className).results =
          ({ baseState with results := [sampleRecord] } : ModState).results :=
  c9_roundtrip_results (fun _ => none) { baseState with results := [sampleRecord] }
    (by decide) (by decide) (by decide)

/-- C4 counterexample: `save_to_json` on a module whose `detected` dump
raises (a circular structure) lets that exception escape — the detected
write is not guarded by any `try`, so not every persistence failure is
caught and logged inside `save_to_json`. -/
theorem c4_counterexample_detected_dump_escapes :
    (save_to_json circularDump
        { baseState with results := [sampleRecord], detected := [circularRecord] }).escaped
      = some (PyErr.other "Circular reference detected") := by
  decide

/-- C4 (amended): a failure dumping the *results* file is caught and
logged as an error and does not prevent the attempt to persist
`detected` (which is written if its own dump succeeds); but a failure
dumping the *detected* file is not caught and escapes `save_to_json`. -/
theorem c4_save_to_json_amended (dump : List Record → Option PyErr) (m : ModState)
    (e : PyErr) (hout : truthyOpt m.output_folder = true)
    (hres : m.results ≠ []) (hdump : dump m.results = some e) :
    (save_to_json dump m).log =
        [{ level := LogLevel.error, msg := "Unable to store results of module" }]
    ∧ (m.detected ≠ [] → dump m.detected = none →
        (save_to_json dump m).files =
            [(get_slug m.slug m.className ++ "_detected.json", m.detected)]
        ∧ (save_to_json dump m).escaped = none)
    ∧ (∀ e2, m.detected ≠ [] → dump m.detected = some e2 →
        (save_to_json dump m).escaped = some e2) := by
  have hcond : ¬ truthyOpt m.output_folder = false := by simp [hout]
  refine ⟨?_, fun hdet hd2 => ?_, fun e2 hdet hd2 => ?_⟩
  · by_cases hdet : m.detected = []
    · simp [save_to_json, hcond, hres, hdump, hdet]
    · rcases hd2 : dump m.detected with _ | e2 <;>
        simp [save_to_json, hcond, hres, hdump, hdet, hd2]
  · constructor <;> simp [save_to_json, hcond, hres, hdump, hdet, hd2]
  · simp [save_to_json, hcond, hres, hdump, hdet, hd2]

/-- Witness for C4: results dump fails (caught, logged), detected dump
succeeds and the detected file is still written, nothing escapes. -/
theorem c4_save_to_json_witness :
    (save_to_json resultsFailDump
        { baseState with results := [sampleRecord], detected := [circularRecord] }).log =
      [{ level := LogLevel.error, msg := "Unable to store results of module" }]
    ∧ (save_to_json resultsFailDump
        { baseState with results := [sampleRecord], detected := [circularRecord] }).files =
      [("contact_list_detected.json", [circularRecord])]
    ∧ (save_to_json resultsFailDump
        { baseState with results := [sampleRecord], detected := [circularRecord] }).escaped = none := by
  have h := c4_save_to_json_amended resultsFailDump
    { baseState with results := [sampleRecord], detected := [circularRecord] }
    (PyErr.other "not serializable") (by decide) (by decide) (by decide)
  refine ⟨h.1, ?_, (h.2.1 (by decide) (by decide)).2⟩
  have h2 := (h.2.1 (by decide) (by decide)).1
  simpa using h2

/-- C5: when `run()` raises `DatabaseNotFoundError` and the module's
accumulators are empty, `run_module` logs only informational messages,
writes no structured result file, nothing escapes to the caller, and the
module ends its run with empty `results` and `detected` (persistence,
which the runner skips here, would have been a no-op on them anyway). -/
theorem c5_database_not_found (b : ModBehavior) (m m1 : ModState)
    (hrun : b.run m = (m1, some PyErr.databaseNotFound))
    (hres : m1.results = []) (hdet : m1.detected = []) :
    (run_module b m).log =
        [{ level := LogLevel.info, msg := "Running module" },
         { level := LogLevel.info, msg := "there might be no data to extract" }]
    ∧ (∀ entry ∈ (run_module b m).log, entry.level = LogLevel.info)
    ∧ (run_module b m).files = []
    ∧ (run_module b m).escaped = none
    ∧ (run_module b m).state.results = []
    ∧ (run_module b m).state.detected = [] := by
  refine ⟨?_, ?_, ?_, ?_, ?_, ?_⟩ <;>
    simp [run_module, hrun, hres, hdet, List.forall_mem_cons]

/-- Witness for C5: a concrete module whose `run` raises
`DatabaseNotFoundError` on an untouched state. -/
theorem c5_database_not_found_witness :
    (run_module notFoundBehavior baseState).log =
        [{ level := LogLevel.info, msg := "Running module" },
         { level := LogLevel.info, msg := "there might be no data to extract" }]
    ∧ (run_module notFoundBehavior baseState).files = []
    ∧ (run_module notFoundBehavior baseState).escaped = none :=
  have h := c5_database_not_found notFoundBehavior baseState baseState
    (by decide) (by decide) (by decide)
  ⟨h.1, h.2.2.1, h.2.2.2.1⟩

/-- C3: when `run()` raises `DatabaseCorruptedError`, `run_module` logs
it at error level (the failure channel surfaced to the caller), stops
the pipeline after the EXTRACTING stage (`check_indicators`,
`to_timeline`, `save_to_json` are not invoked — the outcome is the same
for any behavior agreeing on `run`), writes nothing, lets nothing
escape, and a batch containing the module still runs every sibling. -/
theorem c3_database_corrupted (b b2 : ModBehavior) (m m1 : ModState)
    (rest : List (ModBehavior × ModState))
    (hrun : b.run m = (m1, some PyErr.databaseCorrupted))
    (hrun2 : b2.run = b.run) :
    ({ level := LogLevel.error, msg := "database corrupted and recovery failed" } ∈
        (run_module b m).log)
    ∧ (run_module b m).calls = [StageCall.runStage]
    ∧ (run_module b m).files = []
    ∧ (run_module b m).escaped = none
    ∧ run_module b2 m = run_module b m
    ∧ run_batch ((b, m) :: rest) =
        ((run_module b m) :: (run_batch rest).1, (run_batch rest).2) := by
  refine ⟨?_, ?_, ?_, ?_, ?_, ?_⟩ <;>
    simp [run_module, run_batch, hrun, hrun2]

/-- Witness for C3: a concrete corrupted-database module followed by a
healthy sibling in a batch; both outcomes are produced. -/
theorem c3_database_corrupted_witness :
    ({ level := LogLevel.error, msg := "database corrupted and recovery failed" } ∈
        (run_module corruptBehavior baseState).log)
    ∧ (run_module corruptBehavior baseState).calls = [StageCall.runStage]
    ∧ (run_module corruptBehavior baseState).escaped = none
    ∧ run_batch [(corruptBehavior, baseState), (okBehavior, baseState)] =
        ((run_module corruptBehavior baseState) ::
          (run_batch [(okBehavior, baseState)]).1,
         (run_batch [(okBehavior, baseState)]).2) :=
  have h := c3_database_corrupted corruptBehavior corruptBehavior baseState baseState
    [(okBehavior, baseState)] (by decide) rfl
  ⟨h.1, h.2.1, h.2.2.2.1, h.2.2.2.2.2⟩

/-- C1 counterexample: `run()` succeeds and `check_indicators()` raises
a generic exception; the exception escapes `run_module` (it is *not*
caught there), and in a two-module batch the sibling is never run — the
claim that such a failure never propagates out of `run_module` is false
on the code. -/
theorem c1_counterexample_check_failure_escapes :
    (run_module checkFailBehavior baseState).escaped = some (PyErr.other "boom")
    ∧ (run_batch [(checkFailBehavior, baseState), (okBehavior, baseState)]).1.length = 1 := by
  exact ⟨by decide, by decide⟩

/-- C1 (amended): a failure from `check_indicators` other than
`NotImplementedError` is not caught by `run_module`: the module's
pipeline stops (`to_timeline` and `save_to_json` are not invoked, no
file is written) and the exception propagates out of `run_module`,
aborting the remaining sibling runs of an unguarded batch. -/
theorem c1_check_failure_propagates (b : ModBehavior) (m m1 m2 : ModState) (e : PyErr)
    (hrun : b.run m = (m1, none))
    (hchk : b.check_indicators m1 = (m2, some e))
    (hne : e ≠ PyErr.notImplementedError) :
    (run_module b m).escaped = some e
    ∧ (run_module b m).calls = [StageCall.runStage, StageCall.checkStage]
    ∧ (run_module b m).files = []
    ∧ ∀ rest, run_batch ((b, m) :: rest) = ([run_module b m], some e) := by
  cases e <;>
    first
    | exact absurd rfl hne
    | (refine ⟨?_, ?_, ?_, fun rest => ?_⟩ <;> simp [run_module, run_batch, hrun, hchk])

/-- Witness for C1 at the concrete failing behavior. -/
theorem c1_check_failure_witness :
    (run_module checkFailBehavior baseState).calls =
        [StageCall.runStage, StageCall.checkStage]
    ∧ (run_module checkFailBehavior baseState).files = []
    ∧ run_batch [(checkFailBehavior, baseState)] =
        ([run_module checkFailBehavior baseState], some (PyErr.other "boom")) :=
  have h := c1_check_failure_propagates checkFailBehavior baseState baseState baseState
    (PyErr.other "boom") (by decide) (by decide) (by decide)
  ⟨h.2.1, h.2.2.1, h.2.2.2 []⟩

/-- C2 (code-bug evidence): the default argument `results=[]` of
`__init__` is one list object evaluated at `def` time, so two instances
constructed without an explicit `results` argument alias it: appending
one entry through the first instance's `results` is visible through the
second instance's `results` (the spec demands it stay `[]`), their
`results` references coincide, while the `detected` accumulators — which
`__init__` allocates freshly in its body — are distinct objects and stay
empty. -/
theorem c2_shared_default_results_bug :
    (let s0 := allocResultsDefault { cells := [] }
     let s1 := MVTModule.initRefs s0.1 s0.2 none
     let s2 := MVTModule.initRefs s1.1 s0.2 none
     let h4 := ListHeap.appendEntry s2.1 s1.2.resultsRef sampleRecord
     ListHeap.get h4 s2.2.resultsRef = [sampleRecord]
     ∧ s1.2.resultsRef = s2.2.resultsRef
     ∧ s1.2.detectedRef ≠ s2.2.detectedRef
     ∧ ListHeap.get h4 s1.2.detectedRef = []
     ∧ ListHeap.get h4 s2.2.detectedRef = []) := by
  decide
